import Mathlib

/-!
Shallow embedding of the UDP input service (`services/udp/service.go`).

The service runs three stage loops — `serve` (listener), `parser` (decoder)
and `writer` (delivery) — coordinated by channels and one cancellation
signal.  Each loop is embedded as a step function on an explicit state,
and a run function folding the step over a list of events; a `cancel`
event models the context being done, at which point the loop returns and
no further event is received by it.  External collaborators
(`models.ParsePointsWithPrecision`, `MetaClient.CreateDatabase`,
`PointsWriter.WritePointsPrivileged`, address resolution and socket
binding) are oracles supplied with each event; the states additionally
record the trace of external calls the code performs, so that claims
about "no write call occurs" are statements about those traces.
-/

namespace UDPService

/-- The seven counters of `Statistics` (service.go, lines 150-158).
In Go they are `int64` updated with `atomic.AddInt64`; every update in
this file adds a nonnegative quantity, so they are embedded as `Nat`. -/
structure Statistics where
  pointsReceived : Nat
  bytesReceived : Nat
  pointsParseFail : Nat
  readFail : Nat
  batchesTransmitted : Nat
  pointsTransmitted : Nat
  batchesTransmitFail : Nat
deriving Repr, DecidableEq

/-- The zero value of `Statistics`, as allocated by `NewService`. -/
def initialStatistics : Statistics :=
  { pointsReceived := 0, bytesReceived := 0, pointsParseFail := 0, readFail := 0,
    batchesTransmitted := 0, pointsTransmitted := 0, batchesTransmitFail := 0 }

/-- A raw UDP payload: the `nbytes`-byte copy of the read buffer that
`serve` sends down `parserChan` (service.go, lines 238-240). -/
abbrev Payload := List Nat

/-! ## Listener stage (`Service.serve`, lines 204-243) -/

/-- One event observed by the outer select loop of `serve`: either the
context is done (`cancel`), or the inner read goroutine hands over the
result of one `ReadFromUDP` call — a payload on success, an error
otherwise. -/
inductive ServeEvent where
  | cancel
  | read (r : Except String Payload)

/-- State of the `serve` loop: the statistics, the payloads it has sent
into `parserChan` (in order), and whether it has closed the socket. -/
structure ServeState where
  stats : Statistics
  parserChan : List Payload
  connClosed : Bool
deriving Repr, DecidableEq

/-- Handling of one read result by `serve` (lines 229-241): a failed
read increments `ReadFail` and the loop continues; a successful read of
`nbytes` bytes increments `BytesReceived` by `nbytes` and forwards the
copied payload into `parserChan`. -/
def serveStep (st : ServeState) (r : Except String Payload) : ServeState :=
  match r with
  | .error _ =>
      { st with stats := { st.stats with readFail := st.stats.readFail + 1 } }
  | .ok p =>
      { st with
        stats := { st.stats with bytesReceived := st.stats.bytesReceived + p.length },
        parserChan := st.parserChan ++ [p] }

/-- The `serve` select loop over a list of events.  On `cancel` it
closes the connection and returns (lines 225-228); events after the
cancellation are never received by the loop. -/
def serveRun : List ServeEvent → ServeState → ServeState
  | [], st => st
  | ServeEvent.cancel :: _, st => { st with connClosed := true }
  | ServeEvent.read r :: es, st => serveRun es (serveStep st r)

/-! ## Decoder stage (`Service.parser`, lines 245-266) -/

/-- One event observed by the `parser` loop: context done, or a payload
taken from `parserChan`. -/
inductive ParserEvent where
  | cancel
  | payload (buf : Payload)

/-- State of the `parser` loop over record type `R`: the statistics and
the records it has sent into the batcher input channel `batcher.In()`,
in order. -/
structure ParserState (R : Type) where
  stats : Statistics
  batcherIn : List R

/-- Handling of one payload by `parser` (lines 252-263).  The external
decoder `models.ParsePointsWithPrecision` — together with the reception
timestamp and the configured precision it is given — is the oracle
`decode`.  On failure: `PointsParseFail` is incremented and the payload
is discarded.  On success: every decoded point is sent into
`batcher.In()` in order, then `PointsReceived` is incremented by the
number of decoded points. -/
def parserStep {R : Type} (decode : Payload → Option (List R))
    (st : ParserState R) (buf : Payload) : ParserState R :=
  match decode buf with
  | none =>
      { st with stats := { st.stats with pointsParseFail := st.stats.pointsParseFail + 1 } }
  | some points =>
      { stats := { st.stats with pointsReceived := st.stats.pointsReceived + points.length },
        batcherIn := st.batcherIn ++ points }

/-- The `parser` select loop over a list of events; on `cancel` it
returns (lines 250-251). -/
def parserRun {R : Type} (decode : Payload → Option (List R)) :
    List ParserEvent → ParserState R → ParserState R
  | [], st => st
  | ParserEvent.cancel :: _, st => st
  | ParserEvent.payload buf :: es, st => parserRun decode es (parserStep decode st buf)

/-! ## Delivery stage (`Service.writer`, lines 177-202, and
`Service.createInternalStorage`, lines 269-286) -/

/-- One batch arriving on `batcher.Out()`, together with the outcomes
the two external collaborators would return if invoked for it:
`createOk` is the result of `MetaClient.CreateDatabase` and `writeOk`
the result of `PointsWriter.WritePointsPrivileged`. -/
structure WriterEvent (R : Type) where
  batch : List R
  createOk : Bool
  writeOk : Bool

/-- One event observed by the `writer` loop: context done, or a batch. -/
inductive WriterInput (R : Type) where
  | cancel
  | batch (e : WriterEvent R)

/-- State of the `writer` loop: the ready flag (`Service.ready`, the
zero value `false` at `NewService`), the statistics, the number of
`CreateDatabase` invocations, the number of those that succeeded, and
the trace of batches passed to `WritePointsPrivileged`, in order. -/
structure WriterState (R : Type) where
  ready : Bool
  stats : Statistics
  createCalls : Nat
  createSuccesses : Nat
  writeCalls : List (List R)

/-- The writer state of a freshly constructed service. -/
def initialWriterState {R : Type} : WriterState R :=
  { ready := false, stats := initialStatistics, createCalls := 0,
    createSuccesses := 0, writeCalls := [] }

/-- Embedding of `Service.createInternalStorage` (lines 269-286): if `ready` is
already set, return success without calling `CreateDatabase`; otherwise
invoke `CreateDatabase` (recorded in `createCalls`), and on success set
`ready` to true.  Returns whether it succeeded, with the new state. -/
def createInternalStorage {R : Type} (createOk : Bool) (st : WriterState R) :
    Bool × WriterState R :=
  if st.ready then (true, st)
  else
    let st1 : WriterState R := { st with createCalls := st.createCalls + 1 }
    if createOk then
      (true, { st1 with ready := true, createSuccesses := st1.createSuccesses + 1 })
    else (false, st1)

/-- Handling of one batch by `writer` (lines 184-199): first
`createInternalStorage`; if it fails the batch is dropped and the loop
continues (no write call, no counter change).  Otherwise the batch is
written via `WritePointsPrivileged`; on success `BatchesTransmitted`
increments by 1 and `PointsTransmitted` by the batch length, on failure
`BatchesTransmitFail` increments by 1. -/
def writerStep {R : Type} (st : WriterState R) (e : WriterEvent R) : WriterState R :=
  match createInternalStorage e.createOk st with
  | (false, st1) => st1
  | (true, st1) =>
      let st2 : WriterState R := { st1 with writeCalls := st1.writeCalls ++ [e.batch] }
      if e.writeOk then
        { st2 with stats := { st2.stats with
            batchesTransmitted := st2.stats.batchesTransmitted + 1,
            pointsTransmitted := st2.stats.pointsTransmitted + e.batch.length } }
      else
        { st2 with stats := { st2.stats with
            batchesTransmitFail := st2.stats.batchesTransmitFail + 1 } }

/-- The `writer` select loop over a list of events; on `cancel` it
returns (lines 182-183). -/
def writerRun {R : Type} : List (WriterInput R) → WriterState R → WriterState R
  | [], st => st
  | WriterInput.cancel :: _, st => st
  | WriterInput.batch e :: es, st => writerRun es (writerStep st e)

/-! ## Lifecycle (`Service.RunWithReady`, lines 102-147) -/

/-- The configuration options `RunWithReady` reads.  Field types follow
their use in service.go: `BindAddress` and `Database` are strings
checked against `""`, `ReadBuffer` is an int checked against `0`. -/
structure Config where
  bindAddress : String
  database : String
  retentionPolicy : String
  precision : String
  batchSize : Nat
  batchPending : Nat
  batchTimeout : Nat
  readBuffer : Int

/-- Oracles for the external calls `RunWithReady` performs before
launching the stage loops: `net.ResolveUDPAddr`, `net.ListenUDP` and
`conn.SetReadBuffer`. -/
structure RunEnv where
  resolveUDPAddr : Except String String
  listenUDP : Except String Unit
  setReadBuffer : Except String Unit

/-- Outcome of `RunWithReady`: the returned error (`none` models a nil
return), whether the three stage goroutines were launched, whether the
`ready` channel was closed, and the statistics as left by the startup
path (which never touches a counter). -/
structure RunOutcome where
  err : Option String
  stagesLaunched : Bool
  readyReleased : Bool
  stats : Statistics

/-- Embedding of `Service.RunWithReady` (lines 102-147): validates the configured
bind address and database, resolves the address, binds the socket, sets
the read buffer when configured, then launches `serve`, `parser` and
`writer`, closes `ready`, waits for the three loops and returns nil.
Every failing check returns its error before any stage is launched or
`ready` is released. -/
def runWithReady (cfg : Config) (env : RunEnv) (stats : Statistics) : RunOutcome :=
  if cfg.bindAddress = "" then
    { err := some "bind address has to be specified in config",
      stagesLaunched := false, readyReleased := false, stats := stats }
  else if cfg.database = "" then
    { err := some "database has to be specified in config",
      stagesLaunched := false, readyReleased := false, stats := stats }
  else
    match env.resolveUDPAddr with
    | .error e =>
        { err := some e, stagesLaunched := false, readyReleased := false, stats := stats }
    | .ok _ =>
        match env.listenUDP with
        | .error e =>
            { err := some e, stagesLaunched := false, readyReleased := false, stats := stats }
        | .ok _ =>
            if cfg.readBuffer ≠ 0 then
              match env.setReadBuffer with
              | .error e =>
                  { err := some e, stagesLaunched := false, readyReleased := false,
                    stats := stats }
              | .ok _ =>
                  { err := none, stagesLaunched := true, readyReleased := true,
                    stats := stats }
            else
              { err := none, stagesLaunched := true, readyReleased := true, stats := stats }

/-- The payloads among a list of read results that `serve` accepts and
relays downstream: the successful reads, in order. -/
def acceptedPayloads (reads : List (Except String Payload)) : List Payload :=
  reads.filterMap fun r => match r with | .ok p => some p | .error _ => none

/-! ## Concrete instances used by the witnesses -/

/-- A concrete decoder on `Nat` records: payload `[10]` decodes to two
records, everything else is malformed. -/
def decode0 : Payload → Option (List Nat) :=
  fun p => if p = [10] then some [1, 2] else none

/-- A concrete parser state with zeroed counters and an empty batcher
input trace. -/
def pstate0 : ParserState Nat := { stats := initialStatistics, batcherIn := [] }

/-- A concrete serve state with zeroed counters, nothing relayed and the
socket open. -/
def sstate0 : ServeState :=
  { stats := initialStatistics, parserChan := [], connClosed := false }

/-- A concrete writer state that is already ready. -/
def wready0 : WriterState Nat := { initialWriterState with ready := true }

/-- A batch event whose `CreateDatabase` call fails. -/
def badCreateEvent : WriterEvent Nat := { batch := [], createOk := false, writeOk := true }

/-- A batch event whose `CreateDatabase` and write calls both succeed. -/
def goodEvent : WriterEvent Nat := { batch := [3, 4], createOk := true, writeOk := true }

/-- A concrete valid configuration. -/
def cfg0 : Config :=
  { bindAddress := ":8089", database := "udp", retentionPolicy := "",
    precision := "n", batchSize := 5000, batchPending := 10, batchTimeout := 1,
    readBuffer := 0 }

/-- A concrete environment in which resolution, binding and the read
buffer call all succeed. -/
def env0 : RunEnv :=
  { resolveUDPAddr := Except.ok ":8089", listenUDP := Except.ok (),
    setReadBuffer := Except.ok () }

/-! ## Helper lemmas -/

/-- The `serve` loop relays exactly the successfully read payloads, appended in
order to what it had already relayed. -/
theorem serveRun_parserChan (reads : List (Except String Payload)) (st : ServeState) :
    (serveRun (reads.map ServeEvent.read) st).parserChan
      = st.parserChan ++ acceptedPayloads reads := by
  induction reads generalizing st with
  | nil => simp [serveRun, acceptedPayloads]
  | cons r rs ih =>
      cases r with
      | error e =>
          simp [serveRun, serveStep, acceptedPayloads, List.filterMap_cons] at *
          simpa using ih _
      | ok p =>
          simp [serveRun, serveStep, acceptedPayloads, List.filterMap_cons] at *
          rw [ih]
          simp

/-- The `parser` loop appends to the batcher input exactly the concatenation of
the decode results of the successfully decoded payloads, in order. -/
theorem parserRun_batcherIn {R : Type} (decode : Payload → Option (List R))
    (payloads : List Payload) (st : ParserState R) :
    (parserRun decode (payloads.map ParserEvent.payload) st).batcherIn
      = st.batcherIn ++ (payloads.filterMap decode).flatten := by
  induction payloads generalizing st with
  | nil => simp [parserRun]
  | cons p ps ih =>
      cases h : decode p with
      | none =>
          simp [parserRun, parserStep, h, List.filterMap_cons]
          simpa [parserStep, h] using ih _
      | some points =>
          simp [parserRun, List.filterMap_cons, h]
          rw [ih]
          simp [parserStep, h, List.append_assoc]

/-- A `writerStep` from a ready state never touches the ready flag, the
creation-call count or the success count. -/
theorem writerStep_of_ready {R : Type} (st : WriterState R) (e : WriterEvent R)
    (h : st.ready = true) :
    (writerStep st e).ready = true ∧ (writerStep st e).createCalls = st.createCalls ∧
      (writerStep st e).createSuccesses = st.createSuccesses := by
  unfold writerStep createInternalStorage
  rw [h]
  cases e.writeOk <;> simp [h]

/-- Over a whole run from a ready state, the ready flag stays true and
`CreateDatabase` is never invoked. -/
theorem writerRun_of_ready {R : Type} (es : List (WriterInput R)) (st : WriterState R)
    (h : st.ready = true) :
    (writerRun es st).ready = true ∧ (writerRun es st).createCalls = st.createCalls := by
  induction es generalizing st with
  | nil => exact ⟨h, rfl⟩
  | cons e es ih =>
      cases e with
      | cancel => exact ⟨h, rfl⟩
      | batch e =>
          obtain ⟨h1, h2, _⟩ := writerStep_of_ready st e h
          obtain ⟨ih1, ih2⟩ := ih (writerStep st e) h1
          exact ⟨ih1, by rw [writerRun]; omega⟩

/-! ## Claims -/

/-- Claim C1: for every payload taken from `parserChan` that the decode
function decodes into `k` records, `parser` forwards all `k` records, in
decoded order, into the batcher input and then increments
`PointsReceived` by exactly `k`; a payload whose decode fails
contributes 0 to `PointsReceived`. -/
theorem parser_forwards_and_counts {R : Type} (decode : Payload → Option (List R))
    (st : ParserState R) (buf : Payload) (points : List R)
    (h : decode buf = some points) :
    parserStep decode st buf =
      { stats := { st.stats with pointsReceived := st.stats.pointsReceived + points.length },
        batcherIn := st.batcherIn ++ points } ∧
    ∀ buf2, decode buf2 = none →
      (parserStep decode st buf2).stats.pointsReceived = st.stats.pointsReceived := by
  constructor
  · simp [parserStep, h]
  · intro buf2 h2
    simp [parserStep, h2]

/-- Witness for C1 at the concrete decoder `decode0` and payload `[10]`,
which decodes to the two records `[1, 2]`. -/
theorem parser_forwards_and_counts_w :
    parserStep decode0 pstate0 [10] =
      { stats := { pstate0.stats with
          pointsReceived := pstate0.stats.pointsReceived + ([1, 2] : List Nat).length },
        batcherIn := pstate0.batcherIn ++ [1, 2] } ∧
    ∀ buf2, decode0 buf2 = none →
      (parserStep decode0 pstate0 buf2).stats.pointsReceived = pstate0.stats.pointsReceived :=
  parser_forwards_and_counts decode0 pstate0 [10] [1, 2] rfl

/-- Claim C2: for every malformed payload, `parser` increments
`PointsParseFail` by exactly 1, leaves `PointsReceived` (and every other
field, in particular the batcher input trace — hence no record of the
payload can ever reach a write call) unchanged, and continues with the
next payload. -/
theorem parser_malformed_drops {R : Type} (decode : Payload → Option (List R))
    (st : ParserState R) (buf : Payload) (es : List ParserEvent)
    (h : decode buf = none) :
    parserStep decode st buf =
      { st with stats := { st.stats with
          pointsParseFail := st.stats.pointsParseFail + 1 } } ∧
    parserRun decode (ParserEvent.payload buf :: es) st =
      parserRun decode es (parserStep decode st buf) := by
  exact ⟨by simp [parserStep, h], rfl⟩

/-- Witness for C2 at the concrete decoder `decode0` and the malformed
payload `[99]`. -/
theorem parser_malformed_drops_w :
    parserStep decode0 pstate0 [99] =
      { pstate0 with stats := { pstate0.stats with
          pointsParseFail := pstate0.stats.pointsParseFail + 1 } } ∧
    parserRun decode0 (ParserEvent.payload [99] :: [ParserEvent.payload [10]]) pstate0 =
      parserRun decode0 [ParserEvent.payload [10]] (parserStep decode0 pstate0 [99]) :=
  parser_malformed_drops decode0 pstate0 [99] [ParserEvent.payload [10]] rfl

/-- Claim C7: for every sequence of read results, the payloads `serve`
relays are exactly the successfully read payloads in order, and the
records `parser` hands to the batcher are exactly the in-order
concatenation of the decode results of the successfully decoded
payloads: same-payload records stay contiguous in decoded order, and
payload groups appear in read order. -/
theorem records_in_order {R : Type} (decode : Payload → Option (List R))
    (reads : List (Except String Payload)) (s : Statistics) (t : Statistics) :
    (serveRun (reads.map ServeEvent.read)
        { stats := s, parserChan := [], connClosed := false }).parserChan
      = acceptedPayloads reads ∧
    (parserRun decode ((acceptedPayloads reads).map ParserEvent.payload)
        { stats := t, batcherIn := [] }).batcherIn
      = ((acceptedPayloads reads).filterMap decode).flatten := by
  constructor
  · simpa using serveRun_parserChan reads _
  · simpa using parserRun_batcherIn decode (acceptedPayloads reads) _

/-- Claim C10: `serve` increments `BytesReceived` by the datagram's byte
count on every successful read, independently of decoding (`parser`
never modifies `BytesReceived`, so a payload that later fails to decode
keeps its contribution), and a failed read only increments `ReadFail`,
leaving `BytesReceived` untouched. -/
theorem bytes_counted_on_read {R : Type} (decode : Payload → Option (List R))
    (st : ServeState) (p : Payload) (e : String) (pst : ParserState R) (buf : Payload) :
    serveStep st (Except.ok p) =
      { st with
        stats := { st.stats with bytesReceived := st.stats.bytesReceived + p.length },
        parserChan := st.parserChan ++ [p] } ∧
    serveStep st (Except.error e) =
      { st with stats := { st.stats with readFail := st.stats.readFail + 1 } } ∧
    (parserStep decode pst buf).stats.bytesReceived = pst.stats.bytesReceived := by
  refine ⟨rfl, rfl, ?_⟩
  cases h : decode buf <;> simp [parserStep, h]

/-- Claim C3: for every batch `writer` handles after the ready flag is
established: on write success, `BatchesTransmitted` increments by 1 and
`PointsTransmitted` by the batch length; on write failure,
`BatchesTransmitFail` increments by 1 and the batch is discarded (each
batch appears exactly once in the write trace, so there is no retry);
either way the ready flag stays true, so the next batch is processed by
the same rules, unaffected by this batch's outcome. -/
theorem writer_ready_write_accounting {R : Type} (st : WriterState R) (e : WriterEvent R)
    (h : st.ready = true) :
    (e.writeOk = true → writerStep st e =
      { st with writeCalls := st.writeCalls ++ [e.batch],
                stats := { st.stats with
                  batchesTransmitted := st.stats.batchesTransmitted + 1,
                  pointsTransmitted := st.stats.pointsTransmitted + e.batch.length } }) ∧
    (e.writeOk = false → writerStep st e =
      { st with writeCalls := st.writeCalls ++ [e.batch],
                stats := { st.stats with
                  batchesTransmitFail := st.stats.batchesTransmitFail + 1 } }) ∧
    (writerStep st e).ready = true := by
  refine ⟨?_, ?_, (writerStep_of_ready st e h).1⟩
  · intro hw
    simp [writerStep, createInternalStorage, h, hw]
  · intro hw
    simp [writerStep, createInternalStorage, h, hw]

/-- Witness for C3: a write-failure batch applied to the concrete ready
state `wready0`. -/
theorem writer_ready_write_accounting_w :
    (({ batch := [7], createOk := true, writeOk := false } : WriterEvent Nat).writeOk = true →
      writerStep wready0 { batch := [7], createOk := true, writeOk := false } =
      { wready0 with
        writeCalls := wready0.writeCalls ++
          [({ batch := [7], createOk := true, writeOk := false } : WriterEvent Nat).batch],
        stats := { wready0.stats with
          batchesTransmitted := wready0.stats.batchesTransmitted + 1,
          pointsTransmitted := wready0.stats.pointsTransmitted +
            ({ batch := [7], createOk := true, writeOk := false } :
              WriterEvent Nat).batch.length } }) ∧
    (({ batch := [7], createOk := true, writeOk := false } : WriterEvent Nat).writeOk = false →
      writerStep wready0 { batch := [7], createOk := true, writeOk := false } =
      { wready0 with
        writeCalls := wready0.writeCalls ++
          [({ batch := [7], createOk := true, writeOk := false } : WriterEvent Nat).batch],
        stats := { wready0.stats with
          batchesTransmitFail := wready0.stats.batchesTransmitFail + 1 } }) ∧
    (writerStep wready0 { batch := [7], createOk := true, writeOk := false }).ready = true :=
  writer_ready_write_accounting wready0 { batch := [7], createOk := true, writeOk := false } rfl

/-- Claim C4: for every batch whose `CreateDatabase` call fails, no
write call is issued (the write trace is unchanged), the batch is
discarded, none of the three delivery counters changes (the whole state
is unchanged except the creation-call count), and the next arriving
batch re-attempts resource creation (the creation-call count rises again
whatever that batch's event holds). -/
theorem writer_create_fail_drops {R : Type} (st : WriterState R) (e : WriterEvent R)
    (h : st.ready = false) (hc : e.createOk = false) :
    writerStep st e = { st with createCalls := st.createCalls + 1 } ∧
    ∀ e2 : WriterEvent R,
      (writerStep (writerStep st e) e2).createCalls = st.createCalls + 2 := by
  have hstep : writerStep st e = { st with createCalls := st.createCalls + 1 } := by
    simp [writerStep, createInternalStorage, h, hc]
  refine ⟨hstep, ?_⟩
  intro e2
  rw [hstep]
  cases hc2 : e2.createOk <;> cases hw2 : e2.writeOk <;>
    simp [writerStep, createInternalStorage, h, hc2, hw2]

/-- Witness for C4: the failing-creation event `badCreateEvent` applied
to the fresh writer state. -/
theorem writer_create_fail_drops_w :
    writerStep (initialWriterState (R := Nat)) badCreateEvent =
      { initialWriterState (R := Nat) with
        createCalls := (initialWriterState (R := Nat)).createCalls + 1 } ∧
    ∀ e2 : WriterEvent Nat,
      (writerStep (writerStep (initialWriterState (R := Nat)) badCreateEvent) e2).createCalls
        = (initialWriterState (R := Nat)).createCalls + 2 :=
  writer_create_fail_drops (initialWriterState (R := Nat)) badCreateEvent rfl rfl

/-- Claim C5: the ready flag starts false at construction, stays false
when a creation call fails, becomes true when a creation call succeeds,
and from any ready state it remains true for the rest of the run with
`CreateDatabase` never invoked again. -/
theorem ready_monotone {R : Type} :
    (initialWriterState (R := R)).ready = false ∧
    (∀ (st : WriterState R) (e : WriterEvent R), st.ready = false → e.createOk = false →
      (writerStep st e).ready = false) ∧
    (∀ (st : WriterState R) (e : WriterEvent R), st.ready = false → e.createOk = true →
      (writerStep st e).ready = true) ∧
    (∀ (es : List (WriterInput R)) (st : WriterState R), st.ready = true →
      (writerRun es st).ready = true ∧ (writerRun es st).createCalls = st.createCalls) := by
  refine ⟨rfl, ?_, ?_, fun es st h => writerRun_of_ready es st h⟩
  · intro st e h hc
    simp [writerStep, createInternalStorage, h, hc]
  · intro st e h hc
    cases hw : e.writeOk <;> simp [writerStep, createInternalStorage, h, hc, hw]

/-- Witness for C5: a run of one successful batch from the ready state
`wready0` keeps the flag true and never invokes creation. -/
theorem ready_monotone_w :
    (writerRun [WriterInput.batch goodEvent] wready0).ready = true ∧
    (writerRun [WriterInput.batch goodEvent] wready0).createCalls = wready0.createCalls :=
  (ready_monotone (R := Nat)).2.2.2 [WriterInput.batch goodEvent] wready0 rfl

/-- Helper invariant for C6: if the success count is 0 while not ready
and at most 1 overall, a run preserves the bound of 1. -/
theorem writerRun_successes_bound {R : Type} (es : List (WriterInput R))
    (st : WriterState R) (h1 : st.createSuccesses ≤ 1)
    (h2 : st.ready = false → st.createSuccesses = 0) :
    (writerRun es st).createSuccesses ≤ 1 := by
  induction es generalizing st with
  | nil => exact h1
  | cons e es ih =>
      cases e with
      | cancel => exact h1
      | batch e =>
          rw [writerRun]
          cases hr : st.ready with
          | true =>
              obtain ⟨hr1, _, hs⟩ := writerStep_of_ready st e hr
              exact ih _ (by omega) (by intro hx; rw [hr1] at hx; cases hx)
          | false =>
              have h0 := h2 hr
              cases hc : e.createOk with
              | true =>
                  cases hw : e.writeOk <;>
                    · refine ih _ ?_ ?_ <;>
                        simp [writerStep, createInternalStorage, hr, hc, hw, h0]
              | false =>
                  refine ih _ ?_ ?_ <;>
                    simp [writerStep, createInternalStorage, hr, hc, h0]

/-- Counterexample to C6 as stated: two batches whose creation calls
both fail drive the `CreateDatabase` invocation count to 2, so it is not
at most one in total over the run. -/
theorem create_invoked_twice_cex :
    (writerRun [WriterInput.batch badCreateEvent, WriterInput.batch badCreateEvent]
        (initialWriterState (R := Nat))).createCalls = 2 ∧
    ¬ ((writerRun [WriterInput.batch badCreateEvent, WriterInput.batch badCreateEvent]
        (initialWriterState (R := Nat))).createCalls ≤ 1) := by
  exact ⟨rfl, by decide⟩

/-- Claim C6, amended: over any run of one service instance,
`CreateDatabase` *succeeds* at most once — after the first successful
invocation the ready flag is true and the call is never issued again —
but while every attempt fails, each arriving batch re-invokes it, so the
total invocation count can exceed one. -/
theorem create_succeeds_at_most_once {R : Type} (es : List (WriterInput R)) :
    (writerRun es (initialWriterState (R := R))).createSuccesses ≤ 1 ∧
    ∀ (fs : List (WriterInput R)) (st : WriterState R), st.ready = true →
      (writerRun fs st).createCalls = st.createCalls := by
  refine ⟨writerRun_successes_bound es _ (by simp [initialWriterState]) (fun _ => rfl), ?_⟩
  intro fs st h
  exact (writerRun_of_ready fs st h).2

/-- Witness for C6 (amended): a run that fails creation twice and then
succeeds from the resulting ready state. -/
theorem create_succeeds_at_most_once_w :
    (writerRun [WriterInput.batch badCreateEvent, WriterInput.batch badCreateEvent,
        WriterInput.batch goodEvent] (initialWriterState (R := Nat))).createSuccesses ≤ 1 ∧
    ∀ (fs : List (WriterInput Nat)) (st : WriterState Nat), st.ready = true →
      (writerRun fs st).createCalls = st.createCalls :=
  create_succeeds_at_most_once [WriterInput.batch badCreateEvent,
    WriterInput.batch badCreateEvent, WriterInput.batch goodEvent]

/-- Claim C8: if the bind address is empty, the database name is empty,
address resolution fails, or binding the socket fails, then
`RunWithReady` returns a non-nil error, launches no stage loop, never
releases the ready signal, and modifies no counter. -/
theorem run_startup_failure (cfg : Config) (env : RunEnv) (stats : Statistics)
    (h : cfg.bindAddress = "" ∨ cfg.database = "" ∨
         (∃ e, env.resolveUDPAddr = Except.error e) ∨
         (∃ e, env.listenUDP = Except.error e)) :
    (runWithReady cfg env stats).err ≠ none ∧
    (runWithReady cfg env stats).stagesLaunched = false ∧
    (runWithReady cfg env stats).readyReleased = false ∧
    (runWithReady cfg env stats).stats = stats := by
  unfold runWithReady
  by_cases h1 : cfg.bindAddress = ""
  · simp [h1]
  by_cases h2 : cfg.database = ""
  · simp [h1, h2]
  rcases h with h | h | ⟨e, he⟩ | ⟨e, he⟩
  · exact absurd h h1
  · exact absurd h h2
  · simp [h1, h2, he]
  · cases hr : env.resolveUDPAddr with
    | error e2 => simp [h1, h2, hr]
    | ok a => simp [h1, h2, hr, he]

/-- Witness for C8: the valid environment `env0` with a configuration
whose bind address is empty. -/
theorem run_startup_failure_w :
    (runWithReady { cfg0 with bindAddress := "" } env0 initialStatistics).err ≠ none ∧
    (runWithReady { cfg0 with bindAddress := "" } env0 initialStatistics).stagesLaunched
      = false ∧
    (runWithReady { cfg0 with bindAddress := "" } env0 initialStatistics).readyReleased
      = false ∧
    (runWithReady { cfg0 with bindAddress := "" } env0 initialStatistics).stats
      = initialStatistics :=
  run_startup_failure { cfg0 with bindAddress := "" } env0 initialStatistics (Or.inl rfl)

/-- Counterexample to C9 as stated: when cancellation fires while a
read is in flight, `serve` closes the socket and returns, so the read
failure the close provokes arrives after the loop has exited and is
never received: `ReadFail` stays 0 instead of being incremented to 1. -/
theorem readfail_not_counted_after_cancel_cex :
    (serveRun [ServeEvent.cancel,
        ServeEvent.read (Except.error "use of closed network connection")]
        sstate0).stats.readFail = 0 ∧
    ¬ ((serveRun [ServeEvent.cancel,
        ServeEvent.read (Except.error "use of closed network connection")]
        sstate0).stats.readFail = 1) := by
  exact ⟨rfl, by decide⟩

/-- Claim C9, amended: after the cancellation signal fires, shutdown
never fails — each of the three stage loops exits at its next
blocking-select point and receives no later event, the listener
additionally closes the socket (which makes the in-flight blocking read
fail, but that failure is NOT counted as a read failure, the outer loop
having already exited), and a run whose startup checks all succeeded
returns without error. -/
theorem shutdown_clean {R : Type} (es : List ServeEvent) (pes : List ParserEvent)
    (wes : List (WriterInput R)) (sst : ServeState) (pst : ParserState R)
    (wst : WriterState R) (decode : Payload → Option (List R))
    (cfg : Config) (env : RunEnv) (stats : Statistics) (a : String)
    (h1 : cfg.bindAddress ≠ "") (h2 : cfg.database ≠ "")
    (h3 : env.resolveUDPAddr = Except.ok a) (h4 : env.listenUDP = Except.ok ())
    (h5 : env.setReadBuffer = Except.ok ()) :
    serveRun (ServeEvent.cancel :: es) sst = { sst with connClosed := true } ∧
    parserRun decode (ParserEvent.cancel :: pes) pst = pst ∧
    writerRun (WriterInput.cancel :: wes) wst = wst ∧
    (runWithReady cfg env stats).err = none := by
  refine ⟨rfl, rfl, rfl, ?_⟩
  unfold runWithReady
  by_cases hb : cfg.readBuffer = 0 <;> simp [h1, h2, h3, h4, h5, hb]

/-- Witness for C9 (amended): concrete states, decoder, configuration
and environment. -/
theorem shutdown_clean_w :
    serveRun (ServeEvent.cancel :: [ServeEvent.read (Except.ok [10])]) sstate0 =
      { sstate0 with connClosed := true } ∧
    parserRun decode0 (ParserEvent.cancel :: [ParserEvent.payload [10]]) pstate0 = pstate0 ∧
    writerRun (WriterInput.cancel :: [WriterInput.batch goodEvent]) wready0 = wready0 ∧
    (runWithReady cfg0 env0 initialStatistics).err = none :=
  shutdown_clean [ServeEvent.read (Except.ok [10])] [ParserEvent.payload [10]]
    [WriterInput.batch goodEvent] sstate0 pstate0 wready0 decode0 cfg0 env0
    initialStatistics ":8089" (by decide) (by decide) rfl rfl rfl

end UDPService
